import Mathlib

/-
Shallow embedding of the gcp_actions helper modules.

Each Python function that talks to a remote service is modelled as a pure
Lean function over an explicit state:
  * the remote service state is a value (association lists of records),
  * every remote call the function makes is recorded in a trace,
  * exceptions that a remote call may raise are injected through explicit
    flags (the Python code under test either catches them or wraps them),
  * a Python function that can raise returns a PyResult.
The definitions follow the control flow of the source files
gcp_actions/firestore_as_swith.py, gcp_actions/blob_manipulation.py,
gcp_actions/secret_manager.py and gcp_actions/common_utils/init_config.py.
-/

namespace GcpActions

/-- Python exceptions that the modelled code raises or catches. -/
inductive PyExc where
  | valueError (msg : String)
  | fileNotFound (msg : String)
  | runtimeError (msg : String)
  | notFound (msg : String)
  deriving Repr, DecidableEq

/-- Outcome of a Python call: a normal return value or a raised exception. -/
inductive PyResult (α : Type) where
  | ok (a : α)
  | raised (e : PyExc)
  deriving Repr, DecidableEq

/-!  Firestore idempotency switch: gcp_actions/firestore_as_swith.py  -/

/-- Document written by check_and_mark_processed: the idempotency key, the
server-assigned processing timestamp and the computed expiry
(datetime.utcnow() + timedelta(hours=ttl_hours), in seconds). -/
structure IdemRecord where
  idempotency_key : String
  processed_at : Nat
  expires_at : Nat
  deriving Repr, DecidableEq

/-- Firestore database restricted to the idempotency documents: an
association list from (collection name, document id) to the record. -/
abbrev FsDb := List ((String × String) × IdemRecord)

/-- Read of db.collection(coll).document(docId).get(): the document if it
exists. -/
def fsGet (db : FsDb) (coll docId : String) : Option IdemRecord :=
  (db.find? (fun p => p.1 == (coll, docId))).map Prod.snd

/-- Write of doc_ref.set(record): replaces any previous document at the same
path. -/
def fsSet (db : FsDb) (coll docId : String) (r : IdemRecord) : FsDb :=
  ((coll, docId), r) :: db.filter (fun p => !(p.1 == (coll, docId)))

/-- Remote Firestore operations attempted by the code, for the trace. -/
inductive FsOp where
  | readDoc (coll docId : String)
  | writeDoc (coll docId : String)
  deriving Repr, DecidableEq

/-- Whether a trace entry is a remote read. -/
def FsOp.isRead : FsOp → Bool
  | .readDoc _ _ => true
  | .writeDoc _ _ => false

/-- Whether a trace entry is a remote write. -/
def FsOp.isWrite : FsOp → Bool
  | .readDoc _ _ => false
  | .writeDoc _ _ => true

/-- Return value, resulting database and trace of remote calls of one call
to check_and_mark_processed. -/
structure MarkResult where
  ret : Bool
  db : FsDb
  trace : List FsOp
  deriving Repr, DecidableEq

/-- Model of check_and_mark_processed. readRaises and writeRaises inject an
exception out of doc_ref.get() and doc_ref.set(...); the except-branch of the
source catches every exception and returns False. server_ts models the
SERVER_TIMESTAMP assigned on write, utc_now the local clock datetime.utcnow()
in seconds. The source reads the document; if it exists it returns True
(duplicate); otherwise it writes a fresh record and returns False (new). -/
def check_and_mark_processed (db : FsDb) (readRaises writeRaises : Bool)
    (server_ts utc_now : Nat) (idempotency_key collection_name : String)
    (ttl_hours : Nat) : MarkResult :=
  if readRaises then
    { ret := false, db := db
      trace := [FsOp.readDoc collection_name idempotency_key] }
  else
    match fsGet db collection_name idempotency_key with
    | some _ =>
        { ret := true, db := db
          trace := [FsOp.readDoc collection_name idempotency_key] }
    | none =>
        if writeRaises then
          { ret := false, db := db
            trace := [FsOp.readDoc collection_name idempotency_key,
                      FsOp.writeDoc collection_name idempotency_key] }
        else
          { ret := false
            db := fsSet db collection_name idempotency_key
              { idempotency_key := idempotency_key
                processed_at := server_ts
                expires_at := utc_now + ttl_hours * 3600 }
            trace := [FsOp.readDoc collection_name idempotency_key,
                      FsOp.writeDoc collection_name idempotency_key] }

/-- Setting a document makes fsGet find it. -/
theorem fsGet_fsSet_same (db : FsDb) (coll docId : String) (r : IdemRecord) :
    fsGet (fsSet db coll docId r) coll docId = some r := by
  simp [fsGet, fsSet, List.find?]

/-- C1: for every non-empty idempotency key, in a state with no record for
that key and with both remote calls succeeding, the first call to
check_and_mark_processed returns False (new) and writes a record for the key,
and a second call with the same key on the resulting state returns True
(duplicate). -/
theorem check_and_mark_first_new_then_duplicate
    (db : FsDb) (sts utc sts2 utc2 : Nat) (key coll : String) (ttl ttl2 : Nat)
    (hkey : key ≠ "")
    (habsent : fsGet db coll key = none) :
    (check_and_mark_processed db false false sts utc key coll ttl).ret = false
    ∧ fsGet (check_and_mark_processed db false false sts utc key coll ttl).db
        coll key ≠ none
    ∧ (check_and_mark_processed
        (check_and_mark_processed db false false sts utc key coll ttl).db
        false false sts2 utc2 key coll ttl2).ret = true := by
  simp [check_and_mark_processed, habsent, fsGet_fsSet_same]

/-- Witness for C1 at a concrete input. -/
theorem check_and_mark_first_new_then_duplicate_witness :
    ("k1" : String) ≠ "" ∧ fsGet [] "processed_messages" "k1" = none ∧
    ((check_and_mark_processed [] false false 5 7 "k1" "processed_messages"
        24).ret = false
    ∧ fsGet (check_and_mark_processed [] false false 5 7 "k1"
        "processed_messages" 24).db "processed_messages" "k1" ≠ none
    ∧ (check_and_mark_processed
        (check_and_mark_processed [] false false 5 7 "k1"
          "processed_messages" 24).db
        false false 6 8 "k1" "processed_messages" 24).ret = true) :=
  And.intro (by decide) (And.intro rfl
    (check_and_mark_first_new_then_duplicate [] 5 7 6 8 "k1"
      "processed_messages" 24 24 (by decide) rfl))

/-- C2: whenever the remote read raises, or the record is absent and the
remote write raises (the write is only attempted when the record is absent),
check_and_mark_processed swallows the exception and returns False (new); it
never returns True on an error path. The model is a total function, so no
exception propagates by construction. -/
theorem check_and_mark_error_returns_new
    (db : FsDb) (rr wr : Bool) (sts utc : Nat) (key coll : String) (ttl : Nat)
    (herr : rr = true ∨ (fsGet db coll key = none ∧ wr = true)) :
    (check_and_mark_processed db rr wr sts utc key coll ttl).ret = false := by
  rcases herr with hrr | ⟨habs, hwr⟩
  · simp [check_and_mark_processed, hrr]
  · cases rr with
    | true => simp [check_and_mark_processed]
    | false => simp [check_and_mark_processed, habs, hwr]

/-- Witness for C2 at a concrete input: the write raises on an absent key. -/
theorem check_and_mark_error_returns_new_witness :
    (true = true ∨ (fsGet [] "c" "k" = none ∧ true = true)) ∧
    (check_and_mark_processed [] false true 1 2 "k" "c" 24).ret = false :=
  ⟨Or.inr ⟨rfl, rfl⟩,
    check_and_mark_error_returns_new [] false true 1 2 "k" "c" 24
      (Or.inr ⟨rfl, rfl⟩)⟩

/-- C8: every call to check_and_mark_processed attempts exactly one remote
read and at most one remote write; when the record for the key is found, no
write is performed and the database is unchanged; a write appears in the
trace only when the record is absent. -/
theorem check_and_mark_one_read_at_most_one_write
    (db : FsDb) (rr wr : Bool) (sts utc : Nat) (key coll : String)
    (ttl : Nat) :
    (((check_and_mark_processed db rr wr sts utc key coll
        ttl).trace.filter FsOp.isRead).length = 1)
    ∧ (((check_and_mark_processed db rr wr sts utc key coll
        ttl).trace.filter FsOp.isWrite).length ≤ 1)
    ∧ (fsGet db coll key ≠ none →
        (check_and_mark_processed db rr wr sts utc key coll ttl).db = db
        ∧ ((check_and_mark_processed db rr wr sts utc key coll
            ttl).trace.filter FsOp.isWrite).length = 0)
    ∧ (((check_and_mark_processed db rr wr sts utc key coll
          ttl).trace.filter FsOp.isWrite).length ≠ 0 →
        fsGet db coll key = none) := by
  cases rr with
  | true =>
      refine ⟨?_, ?_, ?_, ?_⟩ <;>
        simp [check_and_mark_processed, FsOp.isRead, FsOp.isWrite]
  | false =>
      cases hget : fsGet db coll key with
      | some r =>
          refine ⟨?_, ?_, ?_, ?_⟩ <;>
            simp [check_and_mark_processed, hget, FsOp.isRead, FsOp.isWrite]
      | none =>
          cases wr with
          | true =>
              refine ⟨?_, ?_, ?_, ?_⟩ <;>
                simp [check_and_mark_processed, hget, FsOp.isRead,
                  FsOp.isWrite]
          | false =>
              refine ⟨?_, ?_, ?_, ?_⟩ <;>
                simp [check_and_mark_processed, hget, FsOp.isRead,
                  FsOp.isWrite]

/-- Witness for C8 at a concrete input (the implications in the conjunction
instantiated on a state that already holds the key). -/
theorem check_and_mark_one_read_at_most_one_write_witness :
    (((check_and_mark_processed [(("c", "k"), ⟨"k", 1, 2⟩)] false false 3 4
        "k" "c" 24).trace.filter FsOp.isRead).length = 1)
    ∧ (((check_and_mark_processed [(("c", "k"), ⟨"k", 1, 2⟩)] false false 3 4
        "k" "c" 24).trace.filter FsOp.isWrite).length ≤ 1)
    ∧ (fsGet [(("c", "k"), ⟨"k", 1, 2⟩)] "c" "k" ≠ none →
        (check_and_mark_processed [(("c", "k"), ⟨"k", 1, 2⟩)] false false 3 4
          "k" "c" 24).db = [(("c", "k"), ⟨"k", 1, 2⟩)]
        ∧ ((check_and_mark_processed [(("c", "k"), ⟨"k", 1, 2⟩)] false false
            3 4 "k" "c" 24).trace.filter FsOp.isWrite).length = 0)
    ∧ (((check_and_mark_processed [(("c", "k"), ⟨"k", 1, 2⟩)] false false 3 4
          "k" "c" 24).trace.filter FsOp.isWrite).length ≠ 0 →
        fsGet [(("c", "k"), ⟨"k", 1, 2⟩)] "c" "k" = none) :=
  check_and_mark_one_read_at_most_one_write
    [(("c", "k"), ⟨"k", 1, 2⟩)] false false 3 4 "k" "c" 24

/-!  Cloud Storage helpers: gcp_actions/blob_manipulation.py  -/

/-- Remote Cloud Storage operations attempted by the code, for the trace.
existsCheck is blob.exists(), deleteOp is blob.delete(), uploadOp is one of
the upload_from_* calls and downloadOp one of the download_* calls. -/
inductive GcsOp where
  | existsCheck (blob : String)
  | deleteOp (blob : String)
  | uploadOp (blob : String)
  | downloadOp (blob : String)
  deriving Repr, DecidableEq

/-- Exceptions a remote storage call may raise, matching the except clauses
of delete_blob: Forbidden, GoogleAPICallError, and any other exception. -/
inductive GcsExc where
  | forbidden
  | apiCallError
  | otherExc
  deriving Repr, DecidableEq

/-- Return value, resulting bucket contents and trace of one call to
delete_blob. The bucket state is the list of blob names that exist. -/
structure DeleteResult where
  ret : Bool
  bucket : List String
  trace : List GcsOp
  deriving Repr, DecidableEq

/-- Model of delete_blob. existsRaises and deleteRaises inject an exception
out of blob.exists() and blob.delete(); all three except clauses of the
source return False. An empty blob name returns True before any remote call;
a missing blob returns True after the existence check alone; otherwise the
blob is deleted and True is returned. -/
def delete_blob (bucket : List String) (existsRaises deleteRaises : Option GcsExc)
    (blob_name : String) : DeleteResult :=
  if blob_name = "" then
    { ret := true, bucket := bucket, trace := [] }
  else
    match existsRaises with
    | some _ =>
        { ret := false, bucket := bucket
          trace := [GcsOp.existsCheck blob_name] }
    | none =>
        if bucket.contains blob_name then
          match deleteRaises with
          | some _ =>
              { ret := false, bucket := bucket
                trace := [GcsOp.existsCheck blob_name,
                          GcsOp.deleteOp blob_name] }
          | none =>
              { ret := true
                bucket := bucket.filter (fun b => !(b == blob_name))
                trace := [GcsOp.existsCheck blob_name,
                          GcsOp.deleteOp blob_name] }
        else
          { ret := true, bucket := bucket
            trace := [GcsOp.existsCheck blob_name] }

/-- C3: for a non-empty blob name, delete_blob returns True when the blob
does not exist without attempting a remote delete, returns True when the
blob exists and the delete succeeds, and returns False without propagating
whenever the existence check raises or the delete raises (any of Forbidden,
GoogleAPICallError or another exception); the model is total, so no
exception escapes by construction. -/
theorem delete_blob_robust (bucket : List String)
    (existsRaises deleteRaises : Option GcsExc) (blob_name : String)
    (hname : blob_name ≠ "") :
    ((existsRaises = none ∧ bucket.contains blob_name = false →
        (delete_blob bucket existsRaises deleteRaises blob_name).ret = true
        ∧ GcsOp.deleteOp blob_name ∉
            (delete_blob bucket existsRaises deleteRaises blob_name).trace)
    ∧ (existsRaises = none ∧ bucket.contains blob_name = true
        ∧ deleteRaises = none →
        (delete_blob bucket existsRaises deleteRaises blob_name).ret = true)
    ∧ (existsRaises ≠ none →
        (delete_blob bucket existsRaises deleteRaises blob_name).ret = false)
    ∧ (existsRaises = none ∧ bucket.contains blob_name = true
        ∧ deleteRaises ≠ none →
        (delete_blob bucket existsRaises deleteRaises blob_name).ret
          = false)) := by
  refine ⟨?_, ?_, ?_, ?_⟩
  · rintro ⟨he, hc⟩
    simp at hc
    simp [delete_blob, hname, he, hc]
  · rintro ⟨he, hc, hd⟩
    simp at hc
    simp [delete_blob, hname, he, hc, hd]
  · intro he
    match existsRaises with
    | some e => simp [delete_blob, hname]
    | none => exact absurd rfl he
  · rintro ⟨he, hc, hd⟩
    simp at hc
    match deleteRaises with
    | some e => simp [delete_blob, hname, he, hc]
    | none => exact absurd rfl hd

/-- Witness for C3 at a concrete input: a one-blob bucket where the delete
raises a Forbidden error. -/
theorem delete_blob_robust_witness :
    ("a.txt" : String) ≠ "" ∧
    (((some GcsExc.forbidden : Option GcsExc) = none
        ∧ List.contains ["a.txt"] "a.txt" = false →
        (delete_blob ["a.txt"] (some GcsExc.forbidden) none "a.txt").ret = true
        ∧ GcsOp.deleteOp "a.txt" ∉
            (delete_blob ["a.txt"] (some GcsExc.forbidden) none "a.txt").trace)
    ∧ ((some GcsExc.forbidden : Option GcsExc) = none
        ∧ List.contains ["a.txt"] "a.txt" = true
        ∧ (none : Option GcsExc) = none →
        (delete_blob ["a.txt"] (some GcsExc.forbidden) none "a.txt").ret
          = true)
    ∧ ((some GcsExc.forbidden : Option GcsExc) ≠ none →
        (delete_blob ["a.txt"] (some GcsExc.forbidden) none "a.txt").ret
          = false)
    ∧ ((some GcsExc.forbidden : Option GcsExc) = none
        ∧ List.contains ["a.txt"] "a.txt" = true
        ∧ (none : Option GcsExc) ≠ none →
        (delete_blob ["a.txt"] (some GcsExc.forbidden) none "a.txt").ret
          = false)) :=
  And.intro (by decide)
    (delete_blob_robust ["a.txt"] (some GcsExc.forbidden) none "a.txt"
      (by decide))

/-- C10: delete_blob with an empty blob name returns True with an empty
trace (no remote existence check, no delete) and an unchanged bucket. -/
theorem delete_blob_empty_name_noop (bucket : List String)
    (existsRaises deleteRaises : Option GcsExc) :
    delete_blob bucket existsRaises deleteRaises ""
      = { ret := true, bucket := bucket, trace := [] } := by
  simp [delete_blob]

/-- Minimal JSON value, the result of json.loads on a downloaded text blob.
Only the shape matters here; an object is a list of key/value fields. -/
inductive Json where
  | obj (fields : List (String × String))
  | arr (elems : List String)
  | str (s : String)
  deriving Repr, DecidableEq

/-- Value returned by download_from_gcp_bucket: a boolean, a parsed JSON
value, or Python None when the filetype matches no branch. -/
inductive DlValue where
  | boolVal (b : Bool)
  | jsonVal (j : Json)
  | noneVal
  deriving Repr, DecidableEq

/-- Return value and trace of one call to download_from_gcp_bucket. -/
structure DlResult where
  ret : PyResult DlValue
  trace : List GcsOp
  deriving Repr, DecidableEq

/-- Model of download_from_gcp_bucket. blobDownloadRaises injects an
exception out of blob.download_to_filename, textDownload is the combined
outcome of blob.download_as_text followed by json.loads (both failure modes
are wrapped into the same RuntimeError by the source). The source raises
ValueError on an empty blob name, then checks existence: a missing blob
returns False for filetype blob and an empty dict for filetype text; for any
other filetype control falls through to the dispatch below, which returns
None when no branch matches. local_path is optional and Python-falsy when
missing or empty. -/
def download_from_gcp_bucket (bucket : List String)
    (blobDownloadRaises : Bool) (textDownload : PyResult Json)
    (blob_name : String) (local_path : Option String)
    (filetype : String) : DlResult :=
  if blob_name = "" then
    { ret := PyResult.raised (PyExc.valueError "Blob name must not be empty")
      trace := [] }
  else if bucket.contains blob_name = false ∧ filetype = "blob" then
    { ret := PyResult.ok (DlValue.boolVal false)
      trace := [GcsOp.existsCheck blob_name] }
  else if bucket.contains blob_name = false ∧ filetype = "text" then
    { ret := PyResult.ok (DlValue.jsonVal (Json.obj []))
      trace := [GcsOp.existsCheck blob_name] }
  else if filetype = "blob" then
    if local_path.getD "" = "" then
      { ret := PyResult.raised
          (PyExc.valueError "Local path must not be empty for filetype blob")
        trace := [GcsOp.existsCheck blob_name] }
    else if blobDownloadRaises then
      { ret := PyResult.raised (PyExc.runtimeError "Failed to download")
        trace := [GcsOp.existsCheck blob_name, GcsOp.downloadOp blob_name] }
    else
      { ret := PyResult.ok (DlValue.boolVal true)
        trace := [GcsOp.existsCheck blob_name, GcsOp.downloadOp blob_name] }
  else if filetype = "text" then
    match textDownload with
    | PyResult.ok j =>
        { ret := PyResult.ok (DlValue.jsonVal j)
          trace := [GcsOp.existsCheck blob_name,
                    GcsOp.downloadOp blob_name] }
    | PyResult.raised _ =>
        { ret := PyResult.raised
            (PyExc.runtimeError "Failed to download or parse JSON")
          trace := [GcsOp.existsCheck blob_name,
                    GcsOp.downloadOp blob_name] }
  else
    { ret := PyResult.ok DlValue.noneVal
      trace := [GcsOp.existsCheck blob_name] }

/-- C4: for a non-empty blob name that is not in the bucket,
download_from_gcp_bucket returns the empty mapping for filetype text and
False for filetype blob, in both cases without raising and without a
download appearing in the trace. -/
theorem download_missing_blob_sentinels (bucket : List String)
    (blobDownloadRaises : Bool) (textDownload : PyResult Json)
    (blob_name : String) (local_path : Option String)
    (hname : blob_name ≠ "")
    (habsent : bucket.contains blob_name = false) :
    ((download_from_gcp_bucket bucket blobDownloadRaises textDownload
        blob_name local_path "text").ret
      = PyResult.ok (DlValue.jsonVal (Json.obj []))
    ∧ GcsOp.downloadOp blob_name ∉
        (download_from_gcp_bucket bucket blobDownloadRaises textDownload
          blob_name local_path "text").trace
    ∧ (download_from_gcp_bucket bucket blobDownloadRaises textDownload
        blob_name local_path "blob").ret
      = PyResult.ok (DlValue.boolVal false)
    ∧ GcsOp.downloadOp blob_name ∉
        (download_from_gcp_bucket bucket blobDownloadRaises textDownload
          blob_name local_path "blob").trace) := by
  have hmem : blob_name ∉ bucket := by simpa using habsent
  refine ⟨?_, ?_, ?_, ?_⟩ <;>
    simp [download_from_gcp_bucket, hname, habsent, hmem]

/-- Witness for C4 at a concrete input: an empty bucket. -/
theorem download_missing_blob_sentinels_witness :
    ("f.json" : String) ≠ "" ∧ List.contains [] "f.json" = false ∧
    ((download_from_gcp_bucket [] false (PyResult.ok (Json.str "x"))
        "f.json" none "text").ret
      = PyResult.ok (DlValue.jsonVal (Json.obj []))
    ∧ GcsOp.downloadOp "f.json" ∉
        (download_from_gcp_bucket [] false (PyResult.ok (Json.str "x"))
          "f.json" none "text").trace
    ∧ (download_from_gcp_bucket [] false (PyResult.ok (Json.str "x"))
        "f.json" none "blob").ret
      = PyResult.ok (DlValue.boolVal false)
    ∧ GcsOp.downloadOp "f.json" ∉
        (download_from_gcp_bucket [] false (PyResult.ok (Json.str "x"))
          "f.json" none "blob").trace) :=
  And.intro (by decide) (And.intro rfl
    (download_missing_blob_sentinels [] false (PyResult.ok (Json.str "x"))
      "f.json" none (by decide) rfl))

/-- Return value and trace of one call to upload_to_gcp_bucket. A
successful upload returns the gcs_path; an unmatched filetype returns
Python None, modelled as Option.none. -/
structure UploadResult where
  ret : PyResult (Option String)
  trace : List GcsOp
  deriving Repr, DecidableEq

/-- Model of upload_to_gcp_bucket. localIsFile is os.path.isfile(local_path)
and uploadRaises injects an exception out of the upload_from_* call, which
the source wraps into a RuntimeError. The source raises ValueError on an
empty gcs_path, dispatches on filetype (filename, file, string,
string_path) and returns None when no branch matches. -/
def upload_to_gcp_bucket (localIsFile uploadRaises : Bool)
    (gcs_path : String) (filetype : String) : UploadResult :=
  if gcs_path = "" then
    { ret := PyResult.raised (PyExc.valueError "GCS path must not be empty")
      trace := [] }
  else if filetype = "filename" then
    if localIsFile = false then
      { ret := PyResult.raised (PyExc.fileNotFound "Local file not found")
        trace := [] }
    else if uploadRaises then
      { ret := PyResult.raised (PyExc.runtimeError "Failed to upload")
        trace := [GcsOp.uploadOp gcs_path] }
    else
      { ret := PyResult.ok (some gcs_path)
        trace := [GcsOp.uploadOp gcs_path] }
  else if filetype = "file" then
    if localIsFile = false then
      { ret := PyResult.raised (PyExc.fileNotFound "Local file not found")
        trace := [] }
    else if uploadRaises then
      { ret := PyResult.raised (PyExc.runtimeError "Failed to upload")
        trace := [GcsOp.uploadOp gcs_path] }
    else
      { ret := PyResult.ok (some gcs_path)
        trace := [GcsOp.uploadOp gcs_path] }
  else if filetype = "string" then
    if uploadRaises then
      { ret := PyResult.raised (PyExc.runtimeError "Failed to upload")
        trace := [GcsOp.uploadOp gcs_path] }
    else
      { ret := PyResult.ok (some gcs_path)
        trace := [GcsOp.uploadOp gcs_path] }
  else if filetype = "string_path" then
    if uploadRaises then
      { ret := PyResult.raised (PyExc.runtimeError "Failed to upload")
        trace := [GcsOp.uploadOp gcs_path] }
    else
      { ret := PyResult.ok (some gcs_path)
        trace := [GcsOp.uploadOp gcs_path] }
  else
    { ret := PyResult.ok none, trace := [] }

/-- C5: upload_to_gcp_bucket with an empty gcs_path raises ValueError with
an empty trace (no upload attempted), for every filetype and every state of
the local file and of the remote call. -/
theorem upload_empty_gcs_path_raises (localIsFile uploadRaises : Bool)
    (filetype : String) :
    upload_to_gcp_bucket localIsFile uploadRaises "" filetype
      = { ret := PyResult.raised
            (PyExc.valueError "GCS path must not be empty")
          trace := [] } := by
  simp [upload_to_gcp_bucket]

/-- C9: for a non-empty gcs_path and a filetype other than filename, file,
string and string_path (including the default empty string),
upload_to_gcp_bucket returns None with an empty trace: no upload and no
other remote write is performed. -/
theorem upload_unknown_filetype_noop (localIsFile uploadRaises : Bool)
    (gcs_path filetype : String)
    (hpath : gcs_path ≠ "")
    (hft : filetype ≠ "filename" ∧ filetype ≠ "file" ∧ filetype ≠ "string"
      ∧ filetype ≠ "string_path") :
    upload_to_gcp_bucket localIsFile uploadRaises gcs_path filetype
      = { ret := PyResult.ok none, trace := [] } := by
  obtain ⟨h1, h2, h3, h4⟩ := hft
  simp [upload_to_gcp_bucket, hpath, h1, h2, h3, h4]

/-- Witness for C9 at a concrete input: the default empty filetype. -/
theorem upload_unknown_filetype_noop_witness :
    ("dir/out.json" : String) ≠ ""
    ∧ (("" : String) ≠ "filename" ∧ ("" : String) ≠ "file"
        ∧ ("" : String) ≠ "string" ∧ ("" : String) ≠ "string_path")
    ∧ upload_to_gcp_bucket true false "dir/out.json" ""
        = { ret := PyResult.ok none, trace := [] } :=
  And.intro (by decide) (And.intro (by decide)
    (upload_unknown_filetype_noop true false "dir/out.json" "" (by decide)
      (by decide)))

/-!  Secret Manager: gcp_actions/secret_manager.py  -/

/-- Secret Manager state for one project: an association list from secret
id to the list of version payloads, oldest first. Payloads are the UTF-8
strings the source encodes before sending. -/
abbrev SecretStore := List (String × List String)

/-- Versions currently stored under a secret id. -/
def lookupVersions (st : SecretStore) (secret_id : String) :
    Option (List String) :=
  (st.find? (fun p => p.1 == secret_id)).map Prod.snd

/-- Vendor call add_secret_version: appends a new version to an existing
secret and raises NotFound when the secret does not exist. This is the only
remote call update_secret_string makes. -/
def add_secret_version (st : SecretStore) (secret_id payload : String) :
    PyResult SecretStore :=
  match lookupVersions st secret_id with
  | none => PyResult.raised (PyExc.notFound "Secret not found")
  | some _ =>
      PyResult.ok (st.map (fun p =>
        if p.1 == secret_id then (p.1, p.2 ++ [payload]) else p))

/-- Model of SecretManagerClient.update_secret_string: a single
add_secret_version call with the encoded value. -/
def update_secret_string (st : SecretStore) (secret_id new_value : String) :
    PyResult SecretStore :=
  add_secret_version st secret_id new_value

/-- Model of json.dumps on a flat string dictionary, as used by
update_secret_json. Only its role as an encoding matters here. -/
def json_dumps (d : List (String × String)) : String :=
  "\x7b" ++ String.intercalate ", "
    (d.map (fun p => "\x22" ++ p.1 ++ "\x22: \x22" ++ p.2 ++ "\x22"))
  ++ "\x7d"

/-- Model of SecretManagerClient.update_secret_json: converts the dictionary
to a JSON string and delegates to update_secret_string. -/
def update_secret_json (st : SecretStore) (secret_id : String)
    (new_data_dict : List (String × String)) : PyResult SecretStore :=
  update_secret_string st secret_id (json_dumps new_data_dict)

/-- Lookup of a different id after mapping the append-to-one-secret function
over the store: unchanged. -/
theorem lookupVersions_map_append_ne (st : SecretStore)
    (secret_id v sid : String) (hne : sid ≠ secret_id) :
    lookupVersions (st.map (fun p =>
        if p.1 == secret_id then (p.1, p.2 ++ [v]) else p)) sid
      = lookupVersions st sid := by
  induction st with
  | nil => rfl
  | cons hd tl ih =>
      by_cases hb : hd.1 = secret_id
      · have hs : hd.1 ≠ sid := by
          intro hcontra
          exact hne (by rw [← hcontra]; exact hb)
        simp only [List.map_cons, lookupVersions]
        rw [List.find?_cons_of_neg _ (by simp [hb, hs, hne.symm]),
          List.find?_cons_of_neg _ (by simp [hs])]
        exact ih
      · by_cases hs : hd.1 = sid
        · simp only [List.map_cons, lookupVersions]
          rw [List.find?_cons_of_pos _ (by simp [hb, hs, hne]),
            List.find?_cons_of_pos _ (by simp [hs])]
          simp [hb]
        · simp only [List.map_cons, lookupVersions]
          rw [List.find?_cons_of_neg _ (by simp [hb, hs]),
            List.find?_cons_of_neg _ (by simp [hs])]
          exact ih

/-- Lookup of the target id after mapping the append-to-one-secret function
over the store: the old versions with the payload appended. -/
theorem lookupVersions_map_append_eq (st : SecretStore)
    (secret_id v : String) (old : List String)
    (hv : lookupVersions st secret_id = some old) :
    lookupVersions (st.map (fun p =>
        if p.1 == secret_id then (p.1, p.2 ++ [v]) else p)) secret_id
      = some (old ++ [v]) := by
  induction st with
  | nil => exact absurd hv (by simp [lookupVersions])
  | cons hd tl ih =>
      by_cases hb : hd.1 = secret_id
      · have hold : hd.2 = old := by
          have := hv
          unfold lookupVersions at this
          rw [List.find?_cons_of_pos _ (by simp [hb])] at this
          simpa using this
        simp only [List.map_cons, lookupVersions]
        rw [List.find?_cons_of_pos _ (by simp [hb])]
        simp [hb, hold]
      · have htl : lookupVersions tl secret_id = some old := by
          have := hv
          unfold lookupVersions at this
          rwa [List.find?_cons_of_neg _ (by simp [hb])] at this
        simp only [List.map_cons, lookupVersions]
        rw [List.find?_cons_of_neg _ (by simp [hb])]
        exact ih htl

/-- C7: when update_secret_string succeeds, the resulting store keeps every
existing version of every secret unchanged — the versions of the updated
secret are the old list with the new payload appended, and every other
secret id maps to exactly the versions it had before — and
update_secret_json is definitionally the delegation to update_secret_string
on the json.dumps encoding, so it adds a new version the same way. -/
theorem update_secret_appends_version (st : SecretStore)
    (secret_id v : String) (d : List (String × String)) (st' : SecretStore)
    (h : update_secret_string st secret_id v = PyResult.ok st') :
    ((∀ sid, sid ≠ secret_id →
        lookupVersions st' sid = lookupVersions st sid)
    ∧ (∀ old, lookupVersions st secret_id = some old →
        lookupVersions st' secret_id = some (old ++ [v]))
    ∧ update_secret_json st secret_id d
        = update_secret_string st secret_id (json_dumps d)) := by
  refine ⟨?_, ?_, rfl⟩
  · intro sid hne
    unfold update_secret_string add_secret_version at h
    cases hv : lookupVersions st secret_id with
    | none => rw [hv] at h; exact absurd h (by simp)
    | some old =>
        rw [hv] at h
        simp only [PyResult.ok.injEq] at h
        rw [← h, lookupVersions_map_append_ne st secret_id v sid hne]
  · intro old hv
    unfold update_secret_string add_secret_version at h
    rw [hv] at h
    simp only [PyResult.ok.injEq] at h
    rw [← h, lookupVersions_map_append_eq st secret_id v old hv]

/-- Witness for C7 at a concrete input: a two-secret store where secret s1
holds one version. -/
theorem update_secret_appends_version_witness :
    update_secret_string [("s1", ["v1"]), ("s2", ["w1", "w2"])] "s1" "v2"
      = PyResult.ok [("s1", ["v1", "v2"]), ("s2", ["w1", "w2"])]
    ∧ ((∀ sid, sid ≠ "s1" →
        lookupVersions [("s1", ["v1", "v2"]), ("s2", ["w1", "w2"])] sid
          = lookupVersions [("s1", ["v1"]), ("s2", ["w1", "w2"])] sid)
    ∧ (∀ old,
        lookupVersions [("s1", ["v1"]), ("s2", ["w1", "w2"])] "s1" = some old →
        lookupVersions [("s1", ["v1", "v2"]), ("s2", ["w1", "w2"])] "s1"
          = some (old ++ ["v2"]))
    ∧ update_secret_json [("s1", ["v1"]), ("s2", ["w1", "w2"])] "s1"
        [("a", "b")]
      = update_secret_string [("s1", ["v1"]), ("s2", ["w1", "w2"])] "s1"
          (json_dumps [("a", "b")])) :=
  And.intro rfl
    (update_secret_appends_version [("s1", ["v1"]), ("s2", ["w1", "w2"])]
      "s1" "v2" [("a", "b")] [("s1", ["v1", "v2"]), ("s2", ["w1", "w2"])] rfl)

/-!  Config loader: gcp_actions/common_utils/init_config.py  -/

/-- Python dictionary of configuration values, as an association list whose
earlier entries shadow later ones under dget. -/
abbrev PyDict := List (String × String)

/-- Dictionary lookup d.get(k). -/
def dget (d : PyDict) (k : String) : Option String :=
  (d.find? (fun p => p.1 == k)).map Prod.snd

/-- Python d.update(overrides) / merge where the overrides win: the
override entries are consulted first by dget. -/
def dupdate (d overrides : PyDict) : PyDict :=
  overrides ++ d

/-- Accumulation of the secret-loading loop of load_and_inject_config:
all_secrets_data starts empty and is updated with each successfully loaded
secret dictionary in order. -/
def merged_secrets (secretDicts : List PyDict) : PyDict :=
  secretDicts.foldl (fun acc d => dupdate acc d) []

/-- Model of InjectConfig.add_local_variables, as seen by the caller.
rootFound is whether _find_project_root located the project root, fileIsFile
whether local_config.json exists, parseOk whether it parsed. When the passed
merged_config is Python-falsy (empty) the source rebinds the local name to a
fresh dict, so the overrides never reach the dict owned by the caller. -/
def add_local_variables (rootFound fileIsFile parseOk : Bool)
    (local_overrides merged_config : PyDict) : PyDict :=
  if rootFound then
    if merged_config.isEmpty then merged_config
    else if fileIsFile then
      if parseOk then dupdate merged_config local_overrides
      else merged_config
    else merged_config
  else merged_config

/-- Model of InjectConfig.load_and_inject_config: loads the Firestore
config, merges the loaded secrets over it, then applies the local override
file; the resulting dictionary is injected into the process environment. -/
def load_and_inject_config (firestore_config : PyDict)
    (secretDicts : List PyDict) (rootFound fileIsFile parseOk : Bool)
    (local_overrides : PyDict) : PyDict :=
  add_local_variables rootFound fileIsFile parseOk local_overrides
    (dupdate firestore_config (merged_secrets secretDicts))

/-- Lookup through a merge: the overrides are consulted first. -/
theorem dget_dupdate (d o : PyDict) (k : String) :
    dget (dupdate d o) k = (dget o k).orElse (fun _ => dget d k) := by
  induction o with
  | nil => simp [dget, dupdate, Option.orElse]
  | cons hd tl ih =>
      by_cases h : hd.1 = k
      · simp only [dupdate, List.cons_append, dget]
        rw [List.find?_cons_of_pos _ (by simp [h]),
          List.find?_cons_of_pos _ (by simp [h])]
        simp [Option.orElse]
      · simp only [dupdate, List.cons_append, dget] at ih ⊢
        rw [List.find?_cons_of_neg _ (by simp [h]),
          List.find?_cons_of_neg _ (by simp [h])]
        exact ih

/-- A dictionary with a hit for some key is not Python-falsy. -/
theorem dget_some_not_isEmpty (d : PyDict) (k : String)
    (h : dget d k ≠ none) : d.isEmpty = false := by
  cases d with
  | nil => exact absurd rfl h
  | cons hd tl => rfl

/-- An orElse chain with a hit on either side is a hit. -/
theorem orElse_ne_none (a : Option String) (f : Unit → Option String)
    (h : a ≠ none ∨ f () ≠ none) : a.orElse f ≠ none := by
  cases a with
  | some v => simp [Option.orElse]
  | none =>
      rcases h with h | h
      · exact absurd rfl h
      · simpa [Option.orElse] using h

/-- C6: for every key defined by at least two of the three configuration
sources, the configuration produced by load_and_inject_config (with the
project root, the local override file and its parse all available) binds the
key to the local-override value when the local file defines it, otherwise to
the loaded-secrets value when a secret defines it, otherwise to the
Firestore value: precedence local over secret over remote. -/
theorem config_merge_precedence (fs : PyDict) (secretDicts : List PyDict)
    (local_overrides : PyDict) (k : String)
    (hcollide :
      (dget local_overrides k ≠ none
        ∧ dget (merged_secrets secretDicts) k ≠ none)
      ∨ (dget local_overrides k ≠ none ∧ dget fs k ≠ none)
      ∨ (dget (merged_secrets secretDicts) k ≠ none ∧ dget fs k ≠ none)) :
    dget (load_and_inject_config fs secretDicts true true true
        local_overrides) k
      = (dget local_overrides k).orElse (fun _ =>
          (dget (merged_secrets secretDicts) k).orElse (fun _ =>
            dget fs k)) := by
  have hm : (dupdate fs (merged_secrets secretDicts)).isEmpty = false := by
    apply dget_some_not_isEmpty _ k
    rw [dget_dupdate]
    apply orElse_ne_none
    rcases hcollide with ⟨h1, h2⟩ | ⟨h1, h2⟩ | ⟨h1, h2⟩
    · exact Or.inl h2
    · exact Or.inr h2
    · exact Or.inl h1
  unfold load_and_inject_config add_local_variables
  simp only [hm, if_true, Bool.false_eq_true, if_false]
  rw [dget_dupdate]
  cases hl : dget local_overrides k with
  | some v => simp [Option.orElse]
  | none => simp [Option.orElse, dget_dupdate]

/-- Witness for C6 at a concrete input where all three sources define the
key: the local value wins. -/
theorem config_merge_precedence_witness :
    ((dget [("K", "loc")] "K" ≠ none
        ∧ dget (merged_secrets [[("K", "sec")]]) "K" ≠ none)
      ∨ (dget [("K", "loc")] "K" ≠ none ∧ dget [("K", "fire")] "K" ≠ none)
      ∨ (dget (merged_secrets [[("K", "sec")]]) "K" ≠ none
          ∧ dget [("K", "fire")] "K" ≠ none))
    ∧ dget (load_and_inject_config [("K", "fire")] [[("K", "sec")]]
        true true true [("K", "loc")]) "K"
      = (dget [("K", "loc")] "K").orElse (fun _ =>
          (dget (merged_secrets [[("K", "sec")]]) "K").orElse (fun _ =>
            dget [("K", "fire")] "K")) :=
  And.intro (Or.inl (And.intro (by decide) (by decide)))
    (config_merge_precedence [("K", "fire")] [[("K", "sec")]] [("K", "loc")]
      "K" (Or.inl (And.intro (by decide) (by decide))))

end GcpActions
